import Mathlib

/-!
Verification development for `doc2md.py`, a command-line tool that converts an
image or PDF into Markdown by POSTing rendered page images to an
OpenAI-compatible vision chat-completion endpoint.

The Python source is shallowly embedded below.  External effects are made
explicit parameters:
* the HTTP network is a function `net : Nat → HttpResponse` giving the final
  response delivered to the i-th request of the run (the body is the parsed
  JSON of the response);
* the PDF renderer (PyMuPDF, an external library) is abstracted as the list of
  per-page PNG byte buffers it produces, in document page order;
* the parsed TOML config file is an association list of top-level keys.

Per the source's type annotation `extract_markdown_from_image(...) -> str`,
the modelled fragment takes `choices[0].message.content` to be a string when
present; exception *detail* text produced by external libraries is elided from
the modelled stderr lines (only the literal format-string prefixes that appear
in the source are kept).
-/

namespace Doc2md

/-- A byte, as in a Python `bytes` buffer. -/
abbrev Byte := Fin 256

/-- The standard base64 alphabet used by Python's `base64.b64encode`. -/
def b64chars : List Char :=
  "ABCDEFGHIJKLMNOPQRSTUVWXYZabcdefghijklmnopqrstuvwxyz0123456789+/".toList

/-- The base64 digit for a 6-bit value. -/
def b64c (n : Nat) : Char := b64chars.getD n 'A'

/-- RFC 4648 base64 encoding with padding, as `base64.b64encode` produces. -/
def b64encode : List Byte → List Char
  | [] => []
  | [a] => [b64c (a.val / 4), b64c (a.val % 4 * 16), '=', '=']
  | [a, b] => [b64c (a.val / 4), b64c (a.val % 4 * 16 + b.val / 16),
      b64c (b.val % 16 * 4), '=']
  | a :: b :: c :: rest =>
      [b64c (a.val / 4), b64c (a.val % 4 * 16 + b.val / 16),
       b64c (b.val % 16 * 4 + c.val / 64), b64c (c.val % 64)] ++ b64encode rest

/-- Module-level constant `IMAGE_EXTS` of `doc2md.py`. -/
def IMAGE_EXTS : List String := ["jpg", "jpeg", "png", "gif", "bmp", "webp"]

/-- Module-level constant `DEFAULT_ENDPOINT` of `doc2md.py`. -/
def DEFAULT_ENDPOINT : String := "http://localhost:11434/v1/chat/completions"

/-- Module-level constant `DEFAULT_MODEL` of `doc2md.py`. -/
def DEFAULT_MODEL : String := "qwen2.5vl:latest"

/-- Python `str.lower()` on the ASCII fragment (all strings the program
handles here are ASCII, where `Char.toLower` agrees with Python). -/
def lowerAscii (s : String) : String := String.mk (s.toList.map Char.toLower)

/-- Python `str.lstrip(".")`: drop every leading dot. -/
def stripLeadingDots (s : String) : String :=
  String.mk (s.toList.dropWhile (fun c => c == '.'))

/-- Python truthiness of an optional string: `None` and `""` are falsy. -/
def pyTruthy : Option String → Bool
  | none => false
  | some s => if s = "" then false else true

/-- Python `a or b` on optional strings: the left operand if truthy, else the
right operand (whatever it is). -/
def pyOr (a b : Option String) : Option String :=
  if pyTruthy a then a else b

/-- Python `a or d` where `d` is a (truthy) string literal default. -/
def pyOrDefault (a : Option String) (d : String) : String :=
  if pyTruthy a then a.getD d else d

/-- `encode_image_to_data_url` from `doc2md.py`:
lowercase the tag, strip leading dots, normalize `jpg` to `jpeg`, and build
the base64 `data:` URL. -/
def encode_image_to_data_url (data : List Byte) (image_ext : String) : String :=
  let ext0 := stripLeadingDots (lowerAscii image_ext)
  let ext := if ext0 = "jpg" then "jpeg" else ext0
  "data:image/" ++ ext ++ ";base64," ++ String.mk (b64encode data)

/-- Parsed JSON values, as returned by `response.json()`. -/
inductive Json where
  | str (s : String)
  | arr (xs : List Json)
  | obj (fields : List (String × Json))
  | other

/-- Dictionary lookup `j[k]`; `none` models the raised `KeyError`/`TypeError`. -/
def jget (j : Json) (k : String) : Option Json :=
  match j with
  | .obj fs => (fs.find? (fun p => decide (p.1 = k))).map (fun p => p.2)
  | _ => none

/-- List indexing `j[n]`; `none` models the raised `IndexError`/`TypeError`. -/
def jidx (j : Json) (n : Nat) : Option Json :=
  match j with
  | .arr xs => xs.get? n
  | _ => none

/-- The access chain `response.json()["choices"][0]["message"]["content"]`,
requiring a string at the end (per the source's `-> str` annotation);
`none` models the exception raised on any shape mismatch. -/
def extractContent (j : Json) : Option String :=
  match (((jget j "choices").bind (fun c => jidx c 0)).bind
      (fun m => jget m "message")).bind (fun m => jget m "content") with
  | some (.str s) => some s
  | _ => none

/-- An HTTP response as the `requests` library finally delivers it: the status
code and the parsed JSON body. -/
structure HttpResponse where
  status : Nat
  body : Json

/-- `Response.raise_for_status` raises exactly for 4xx and 5xx status codes. -/
def isHttpErrorStatus (s : Nat) : Bool := decide (400 ≤ s) && decide (s < 600)

/-- The fixed instruction string of the request payload in
`extract_markdown_from_image` (verbatim, including the source's typos). -/
def instructionText : String :=
  "Please extract all text from this image and convert it to Markdown format " ++
  "attempting to preserve the original document formating. " ++
  "The output should be a Markdown representation of the orginal image/document text. " ++
  "If there are tables in the images, recreate them as Markdown tables in the output. " ++
  "Formatted Markdown output only, no HTML."

/-- Header construction of `extract_markdown_from_image`: always
`Content-Type`, plus an `Authorization: Bearer` header when `api_key` is
truthy (`if api_key:`). -/
def buildHeaders (api_key : Option String) : List (String × String) :=
  let hs := [("Content-Type", "application/json")]
  if pyTruthy api_key then
    hs ++ [("Authorization", "Bearer " ++ api_key.getD "")]
  else hs

/-- One extraction HTTP request, as the observable data POSTed by
`extract_markdown_from_image`: target URL, headers, and the payload fields
(model, instruction text, image data URL). -/
structure Request where
  endpoint : String
  model : String
  headers : List (String × String)
  instruction : String
  imageDataUrl : String
deriving DecidableEq

/-- The request `extract_markdown_from_image` builds and POSTs. -/
def mkRequest (endpoint model : String) (image_bytes : List Byte)
    (image_ext : String) (api_key : Option String) : Request :=
  { endpoint := endpoint
    model := model
    headers := buildHeaders api_key
    instruction := instructionText
    imageDataUrl := encode_image_to_data_url image_bytes image_ext }

/-- Outcome of one call to `extract_markdown_from_image`:
success with the content string, a `requests.HTTPError` raised by
`raise_for_status` (a `RequestException`), or an exception raised by the JSON
shape access chain (not a `RequestException`). -/
inductive CallResult where
  | ok (text : String)
  | httpError
  | shapeError
deriving DecidableEq

/-- `extract_markdown_from_image` from `doc2md.py`: build the request, POST it
(`resp` is the delivered response), call `raise_for_status`, then read
`choices[0].message.content`. -/
def extract_markdown_from_image (endpoint model : String) (image_bytes : List Byte)
    (image_ext : String) (api_key : Option String) (resp : HttpResponse) :
    Request × CallResult :=
  (mkRequest endpoint model image_bytes image_ext api_key,
   if isHttpErrorStatus resp.status then .httpError
   else
     match extractContent resp.body with
     | some s => .ok s
     | none => .shapeError)

/-- A response on which `extract_markdown_from_image` succeeds. -/
def respOk (r : HttpResponse) : Bool :=
  !isHttpErrorStatus r.status && (extractContent r.body).isSome

/-- The content string of a successful response (junk on failed ones). -/
def contentOf (r : HttpResponse) : String := (extractContent r.body).getD ""

/-- Outcome of `process_pdf`: the joined Markdown string, or `sys.exit(1)`
(both `except` arms of its per-page loop exit with status 1). -/
inductive ProcOutcome where
  | success (text : String)
  | exited (code : Nat)
deriving DecidableEq

/-- Observable trace of a `process_pdf` call: requests POSTed in order, lines
printed to stderr in order, and the outcome. -/
structure PdfRun where
  requests : List Request
  stderr : List String
  outcome : ProcOutcome
deriving DecidableEq

/-- Stderr line `Processed page i/page_count` (source line 90). -/
def progressLine (i total : Nat) : String :=
  "Processed page " ++ toString i ++ "/" ++ toString total

/-- Stderr line of the `requests.RequestException` arm (source line 92);
the library-generated exception detail is elided. -/
def pageHttpErrLine (i : Nat) : String :=
  "Error processing page " ++ toString i ++ ": "

/-- Stderr line of the generic `Exception` arm (source line 95) — note that
JSON shape mismatches are reported under this label too; exception detail
elided. -/
def pageShapeErrLine (i : Nat) : String :=
  "Rendering error on page " ++ toString i ++ ": "

/-- The per-page loop of `process_pdf`.  `done` pages have been processed so
far (so the current page is number `done + 1` of `total`, and consumes
response `net done`); `acc`, `reqs` and `errs` accumulate results, requests
and stderr lines in reverse. -/
def processPdfGo (endpoint model : String) (api_key : Option String)
    (net : Nat → HttpResponse) (total : Nat) :
    List (List Byte) → Nat → List String → List Request → List String → PdfRun
  | [], _, acc, reqs, errs =>
      ⟨reqs.reverse, errs.reverse, .success (String.intercalate "\n\n" acc.reverse)⟩
  | page :: rest, done, acc, reqs, errs =>
      match extract_markdown_from_image endpoint model page "png" api_key (net done) with
      | (req, .ok text) =>
          processPdfGo endpoint model api_key net total rest (done + 1)
            (text :: acc) (req :: reqs) (progressLine (done + 1) total :: errs)
      | (req, .httpError) =>
          ⟨(req :: reqs).reverse, (pageHttpErrLine (done + 1) :: errs).reverse, .exited 1⟩
      | (req, .shapeError) =>
          ⟨(req :: reqs).reverse, (pageShapeErrLine (done + 1) :: errs).reverse, .exited 1⟩

/-- `process_pdf` from `doc2md.py`.  The external PyMuPDF renderer is
abstracted by `pages`, the per-page PNG byte buffers in document page order;
each page is sent through `extract_markdown_from_image` sequentially and the
results are joined with a blank line. -/
def process_pdf (pages : List (List Byte)) (endpoint model : String)
    (api_key : Option String) (net : Nat → HttpResponse) : PdfRun :=
  processPdfGo endpoint model api_key net pages.length pages 0 [] [] []

/-- A parsed TOML value, as `tomllib.load` returns (string, table, or any
other value — ints, bools, arrays… — which the program ignores). -/
inductive Toml where
  | str (s : String)
  | table (fields : List (String × Toml))
  | other

/-- Dictionary lookup on a parsed TOML table. -/
def lookupToml (t : List (String × Toml)) (k : String) : Option Toml :=
  (t.find? (fun p => decide (p.1 = k))).map (fun p => p.2)

/-- `isinstance(v, str)` filter: keep a value only when it is a string. -/
def strVal (v : Option Toml) : Option String :=
  match v with
  | some (.str s) => some s
  | _ => none

/-- The effective config mapping produced by `load_config` (keys absent from
the dict are `none`). -/
structure Config where
  endpoint : Option String := none
  model : Option String := none
  api_key : Option String := none
deriving DecidableEq

/-- The parsing core of `load_config` from `doc2md.py`, applied to the parsed
top-level TOML table: if an `llm` table is present it becomes the base dict,
otherwise the top level is; each of the three keys is kept only when its
value in the base dict is a string. -/
def load_config_data (data : List (String × Toml)) : Config :=
  let base :=
    match lookupToml data "llm" with
    | some (.table t) => t
    | _ => data
  { endpoint := strVal (lookupToml base "endpoint")
    model := strVal (lookupToml base "model")
    api_key := strVal (lookupToml base "api_key") }

/-- `endpoint = args.endpoint or config.get("endpoint") or DEFAULT_ENDPOINT`
(source line 170). -/
def resolveEndpoint (cli cfgv : Option String) : String :=
  pyOrDefault (pyOr cli cfgv) DEFAULT_ENDPOINT

/-- `model = args.model or config.get("model") or DEFAULT_MODEL`
(source line 171). -/
def resolveModel (cli cfgv : Option String) : String :=
  pyOrDefault (pyOr cli cfgv) DEFAULT_MODEL

/-- `api_key = config.get("api_key") or os.environ.get("PDF2MARKDOWN_API_KEY")
or os.environ.get("OPENAI_API_KEY")` (source line 173). -/
def resolveApiKey (cfgv envTool envGeneric : Option String) : Option String :=
  pyOr (pyOr cfgv envTool) envGeneric

/-- Final outcome of a run of `main` (after argument parsing): text printed to
stdout, text written to the output file, `sys.exit(code)`, or an unhandled
exception propagating out of `main`. -/
inductive Outcome where
  | stdoutOut (s : String)
  | fileOut (path : String) (contents : String)
  | exited (code : Nat)
  | uncaught
deriving DecidableEq

/-- Observable trace of a run of `main`. -/
structure MainRun where
  requests : List Request
  stderr : List String
  outcome : Outcome
deriving DecidableEq

/-- The unsupported-format message of `main` (source line 193). -/
def unsupportedMsg : String :=
  "Error: Unsupported file format. Please use jpg, jpeg, png, gif, bmp, webp, or pdf."

/-- Emission step of `main`: `if args.output:` write the text to the file
(verbatim) and confirm on stderr, else `print(text)` — which appends a
newline to stdout. -/
def emitResult (reqs : List Request) (errs : List String)
    (output : Option String) (text : String) : MainRun :=
  if pyTruthy output then
    ⟨reqs, errs ++ ["Text extracted and saved to: " ++ output.getD ""],
     .fileOut (output.getD "") text⟩
  else
    ⟨reqs, errs, .stdoutOut (text ++ "\n")⟩

/-- The body of `main` from `doc2md.py` after argument parsing and the
input-file existence check, with external effects as parameters:
`cfg` is the `load_config` result, `envTool`/`envGeneric` the two API-key
environment variables, `rawExt` the `os.path.splitext(input_path)[1]` value,
`fileBytes` the raw bytes of the input file, `pdfPages` the rendered pages
when the input is a PDF, and `net` the network.  Only
`requests.RequestException` is caught by `main`'s `try`; a JSON shape
exception in the image path therefore propagates unhandled. -/
def run_main (cliEndpoint cliModel : Option String) (cfg : Config)
    (envTool envGeneric : Option String) (output : Option String)
    (rawExt : String) (fileBytes : List Byte) (pdfPages : List (List Byte))
    (net : Nat → HttpResponse) : MainRun :=
  let endpoint := resolveEndpoint cliEndpoint cfg.endpoint
  let model := resolveModel cliModel cfg.model
  let api_key := resolveApiKey cfg.api_key envTool envGeneric
  let ext := stripLeadingDots (lowerAscii rawExt)
  if IMAGE_EXTS.contains ext then
    match extract_markdown_from_image endpoint model fileBytes ext api_key (net 0) with
    | (req, .ok text) => emitResult [req] [] output text
    | (req, .httpError) => ⟨[req], ["Error: "], .exited 1⟩
    | (req, .shapeError) => ⟨[req], [], .uncaught⟩
  else if ext = "pdf" then
    let p := process_pdf pdfPages endpoint model api_key net
    match p.outcome with
    | .success text => emitResult p.requests p.stderr output text
    | .exited c => ⟨p.requests, p.stderr, .exited c⟩
  else
    ⟨[], [unsupportedMsg], .exited 1⟩

/-! Spec-side definitions.  These follow the wording of the specification and
of the claims, and are compared against the source-translated definitions
above. -/

/-- A value is "given"/"present" in the sense of the precedence claims when it
resolves to a non-empty string (an empty string is treated as absent, which is
exactly the code's truthiness test — see claim C10). -/
def givenVal (o : Option String) : Option String :=
  match o with
  | some s => if s = "" then none else some s
  | none => none

/-- Spec wording for the effective endpoint: the CLI value if given, else the
config value, else the built-in default. -/
def specResolvedEndpoint (cli cfgv : Option String) : String :=
  match givenVal cli with
  | some s => s
  | none =>
    match givenVal cfgv with
    | some s => s
    | none => DEFAULT_ENDPOINT

/-- Spec wording for the effective model: the CLI value if given, else the
config value, else the built-in default. -/
def specResolvedModel (cli cfgv : Option String) : String :=
  match givenVal cli with
  | some s => s
  | none =>
    match givenVal cfgv with
    | some s => s
    | none => DEFAULT_MODEL

/-- Spec wording for the effective api_key: the config value if present, else
the tool-specific environment variable, else the generic one, else absent. -/
def specResolvedApiKey (cfgv envTool envGeneric : Option String) : Option String :=
  match givenVal cfgv with
  | some s => some s
  | none =>
    match givenVal envTool with
    | some s => some s
    | none => givenVal envGeneric

/-- Does the top-level TOML table carry an `llm` key holding a table? -/
def hasLlmTable (data : List (String × Toml)) : Bool :=
  match lookupToml data "llm" with
  | some (.table _) => true
  | _ => false

/-- The `llm` sub-table of the top-level TOML table (empty when absent). -/
def llmTable (data : List (String × Toml)) : List (String × Toml) :=
  match lookupToml data "llm" with
  | some (.table t) => t
  | _ => []

/-- Claim C2's wording of the merge: each key is taken from the `llm` section
when the section defines it, and otherwise from the flat top-level key of the
same name. -/
def c2ClaimMerge (data : List (String × Toml)) : Config :=
  if hasLlmTable data then
    let pick := fun (k : String) =>
      match lookupToml (llmTable data) k with
      | some v => strVal (some v)
      | none => strVal (lookupToml data k)
    { endpoint := pick "endpoint", model := pick "model", api_key := pick "api_key" }
  else
    { endpoint := strVal (lookupToml data "endpoint")
      model := strVal (lookupToml data "model")
      api_key := strVal (lookupToml data "api_key") }

/-- Amended wording for C2: when an `llm` table is present, all three keys are
read from it alone and flat top-level keys are ignored entirely (even keys the
section does not define); otherwise the flat keys are used. -/
def c2AmendedMerge (data : List (String × Toml)) : Config :=
  if hasLlmTable data then
    { endpoint := strVal (lookupToml (llmTable data) "endpoint")
      model := strVal (lookupToml (llmTable data) "model")
      api_key := strVal (lookupToml (llmTable data) "api_key") }
  else
    { endpoint := strVal (lookupToml data "endpoint")
      model := strVal (lookupToml data "model")
      api_key := strVal (lookupToml data "api_key") }

/-- The contents returned by responses `net done, net (done+1), …` for `count`
consecutive requests, in request order. -/
def netTexts (net : Nat → HttpResponse) : Nat → Nat → List String
  | _, 0 => []
  | done, count + 1 => contentOf (net done) :: netTexts net (done + 1) count

/-- A well-formed successful response body
`\x7b"choices": [\x7b"message": \x7b"content": s\x7d\x7d]\x7d`. -/
def okBody (s : String) : Json :=
  .obj [("choices", .arr [.obj [("message", .obj [("content", .str s)])]])]

/-- A 200 response with content `s`. -/
def okResp (s : String) : HttpResponse := ⟨200, okBody s⟩

/-! Helper lemmas about `extract_markdown_from_image` and the PDF loop. -/

lemma extract_eq_ok (endpoint model : String) (b : List Byte) (e : String)
    (key : Option String) (resp : HttpResponse) (h : respOk resp = true) :
    extract_markdown_from_image endpoint model b e key resp
      = (mkRequest endpoint model b e key, .ok (contentOf resp)) := by
  have h' : isHttpErrorStatus resp.status = false
      ∧ (extractContent resp.body).isSome = true := by
    simpa [respOk] using h
  rcases Option.isSome_iff_exists.mp h'.2 with ⟨s, hs⟩
  simp [extract_markdown_from_image, h'.1, hs, contentOf]

lemma extract_eq_httpError (endpoint model : String) (b : List Byte) (e : String)
    (key : Option String) (resp : HttpResponse)
    (h : isHttpErrorStatus resp.status = true) :
    extract_markdown_from_image endpoint model b e key resp
      = (mkRequest endpoint model b e key, .httpError) := by
  simp [extract_markdown_from_image, h]

lemma extract_eq_shapeError (endpoint model : String) (b : List Byte) (e : String)
    (key : Option String) (resp : HttpResponse)
    (h1 : isHttpErrorStatus resp.status = false)
    (h2 : extractContent resp.body = none) :
    extract_markdown_from_image endpoint model b e key resp
      = (mkRequest endpoint model b e key, .shapeError) := by
  simp [extract_markdown_from_image, h1, h2]

lemma extract_fail_cases (endpoint model : String) (b : List Byte) (e : String)
    (key : Option String) (resp : HttpResponse) (h : respOk resp = false) :
    extract_markdown_from_image endpoint model b e key resp
        = (mkRequest endpoint model b e key, .httpError)
    ∨ extract_markdown_from_image endpoint model b e key resp
        = (mkRequest endpoint model b e key, .shapeError) := by
  by_cases hH : isHttpErrorStatus resp.status = true
  · exact Or.inl (extract_eq_httpError endpoint model b e key resp hH)
  · have hH' : isHttpErrorStatus resp.status = false := by simpa using hH
    have h2 : extractContent resp.body = none := by
      rcases hc : extractContent resp.body with _ | s
      · rfl
      · exfalso
        have : respOk resp = true := by simp [respOk, hH', hc]
        simp [this] at h
    exact Or.inr (extract_eq_shapeError endpoint model b e key resp hH' h2)

lemma processPdfGo_all_ok (endpoint model : String) (key : Option String)
    (net : Nat → HttpResponse) (total : Nat) (pages : List (List Byte)) :
    ∀ (done : Nat) (acc : List String) (reqs : List Request) (errs : List String),
    (∀ j, j < pages.length → respOk (net (done + j)) = true) →
    (processPdfGo endpoint model key net total pages done acc reqs errs).requests
        = reqs.reverse ++ pages.map (fun p => mkRequest endpoint model p "png" key)
    ∧ (processPdfGo endpoint model key net total pages done acc reqs errs).outcome
        = .success (String.intercalate "\n\n"
            (acc.reverse ++ netTexts net done pages.length)) := by
  induction pages with
  | nil =>
    intro done acc reqs errs _
    simp [processPdfGo, netTexts]
  | cons page rest ih =>
    intro done acc reqs errs h
    have h0 : respOk (net done) = true := by
      have := h 0 (by simp)
      simpa using this
    have hrest : ∀ j, j < rest.length → respOk (net (done + 1 + j)) = true := by
      intro j hj
      have := h (j + 1) (by simpa using Nat.succ_lt_succ hj)
      simpa [Nat.add_assoc, Nat.add_comm 1 j] using this
    have hstep := ih (done + 1) (contentOf (net done) :: acc)
      (mkRequest endpoint model page "png" key :: reqs)
      (progressLine (done + 1) total :: errs) hrest
    rw [show processPdfGo endpoint model key net total (page :: rest) done acc reqs errs
        = processPdfGo endpoint model key net total rest (done + 1)
            (contentOf (net done) :: acc)
            (mkRequest endpoint model page "png" key :: reqs)
            (progressLine (done + 1) total :: errs) from by
      simp [processPdfGo, extract_eq_ok endpoint model page "png" key (net done) h0]]
    refine ⟨?_, ?_⟩
    · rw [hstep.1]; simp
    · rw [hstep.2]; simp [netTexts]

lemma processPdfGo_fail (endpoint model : String) (key : Option String)
    (net : Nat → HttpResponse) (total : Nat) (pages : List (List Byte)) :
    ∀ (done : Nat) (acc : List String) (reqs : List Request) (errs : List String)
      (k : Nat), k < pages.length →
    (∀ j, j < k → respOk (net (done + j)) = true) →
    respOk (net (done + k)) = false →
    (processPdfGo endpoint model key net total pages done acc reqs errs).requests
        = reqs.reverse
            ++ (pages.take (k + 1)).map (fun p => mkRequest endpoint model p "png" key)
    ∧ (processPdfGo endpoint model key net total pages done acc reqs errs).outcome
        = .exited 1 := by
  induction pages with
  | nil =>
    intro done acc reqs errs k hk
    exact absurd hk (by simp)
  | cons page rest ih =>
    intro done acc reqs errs k hk hok hbad
    cases k with
    | zero =>
      have h0 : respOk (net done) = false := by simpa using hbad
      rcases extract_fail_cases endpoint model page "png" key (net done) h0 with hE | hE
      · refine ⟨?_, ?_⟩ <;> simp [processPdfGo, hE]
      · refine ⟨?_, ?_⟩ <;> simp [processPdfGo, hE]
    | succ j =>
      have h0 : respOk (net done) = true := by
        have := hok 0 (Nat.succ_pos j)
        simpa using this
      have hokRest : ∀ i, i < j → respOk (net (done + 1 + i)) = true := by
        intro i hi
        have := hok (i + 1) (Nat.succ_lt_succ hi)
        simpa [Nat.add_assoc, Nat.add_comm 1 i] using this
      have hbadRest : respOk (net (done + 1 + j)) = false := by
        simpa [Nat.add_assoc, Nat.add_comm 1 j] using hbad
      have hstep := ih (done + 1) (contentOf (net done) :: acc)
        (mkRequest endpoint model page "png" key :: reqs)
        (progressLine (done + 1) total :: errs) j
        (by simpa using Nat.lt_of_succ_lt_succ hk) hokRest hbadRest
      rw [show processPdfGo endpoint model key net total (page :: rest) done acc reqs errs
          = processPdfGo endpoint model key net total rest (done + 1)
              (contentOf (net done) :: acc)
              (mkRequest endpoint model page "png" key :: reqs)
              (progressLine (done + 1) total :: errs) from by
        simp [processPdfGo, extract_eq_ok endpoint model page "png" key (net done) h0]]
      refine ⟨?_, hstep.2⟩
      rw [hstep.1]
      simp [List.take_succ_cons]

lemma givenVal_some {a : Option String} {s : String} (h : givenVal a = some s) :
    a = some s ∧ pyTruthy a = true := by
  cases a with
  | none => simp [givenVal] at h
  | some t =>
    by_cases ht : t = ""
    · simp [givenVal, ht] at h
    · have hts : t = s := by simpa [givenVal, ht] using h
      subst hts
      simp [pyTruthy, ht]

lemma givenVal_none {a : Option String} (h : givenVal a = none) :
    pyTruthy a = false := by
  cases a with
  | none => simp [pyTruthy]
  | some t =>
    by_cases ht : t = ""
    · simp [pyTruthy, ht]
    · simp [givenVal, ht] at h

lemma resolve_chain_eq (a b : Option String) (d : String) :
    pyOrDefault (pyOr a b) d
      = match givenVal a with
        | some s => s
        | none =>
          match givenVal b with
          | some s => s
          | none => d := by
  rcases ha : givenVal a with _ | s
  · have ha' := givenVal_none ha
    rcases hb : givenVal b with _ | t
    · have hb' := givenVal_none hb
      simp [pyOr, pyOrDefault, ha', hb', ha, hb]
    · obtain ⟨hb1, hb2⟩ := givenVal_some hb
      subst hb1
      simp [pyOr, pyOrDefault, ha', hb2, ha, hb]
  · obtain ⟨ha1, ha2⟩ := givenVal_some ha
    subst ha1
    simp [pyOr, pyOrDefault, ha2, ha]

lemma apiKey_chain_eq (a b c : Option String) :
    givenVal (resolveApiKey a b c) = specResolvedApiKey a b c := by
  unfold resolveApiKey specResolvedApiKey
  rcases ha : givenVal a with _ | s
  · have ha' := givenVal_none ha
    rcases hb : givenVal b with _ | t
    · have hb' := givenVal_none hb
      simp [pyOr, ha', hb', ha, hb]
    · obtain ⟨hb1, hb2⟩ := givenVal_some hb
      subst hb1
      simp [pyOr, ha', hb2, ha, hb]
  · obtain ⟨ha1, ha2⟩ := givenVal_some ha
    subst ha1
    simp [pyOr, ha2, ha]

/-! The claims. -/

/-- C2, counterexample: for the config with flat key `endpoint` and an `llm`
section defining only `model`, the code drops the flat `endpoint` entirely
(the `llm` section replaces the whole top level), while the claim says the
unshadowed flat key remains in effect. -/
theorem C2_counterexample :
    load_config_data
        [("endpoint", Toml.str "https://flat.example/v1"),
         ("llm", Toml.table [("model", Toml.str "llm-model")])]
      ≠ c2ClaimMerge
        [("endpoint", Toml.str "https://flat.example/v1"),
         ("llm", Toml.table [("model", Toml.str "llm-model")])]
    ∧ (load_config_data
        [("endpoint", Toml.str "https://flat.example/v1"),
         ("llm", Toml.table [("model", Toml.str "llm-model")])]).endpoint = none
    ∧ (c2ClaimMerge
        [("endpoint", Toml.str "https://flat.example/v1"),
         ("llm", Toml.table [("model", Toml.str "llm-model")])]).endpoint
      = some "https://flat.example/v1" :=
  ⟨by decide, by decide, by decide⟩

/-- C2, amended: when the config has an `llm` table, the effective settings
take all three of `endpoint`, `model`, `api_key` exclusively from that table
(flat top-level keys are ignored entirely, even for keys the section does not
define); otherwise they come from the flat top-level keys.  Non-string values
count as absent. -/
theorem C2_llm_section_is_exclusive (data : List (String × Toml)) :
    load_config_data data = c2AmendedMerge data := by
  unfold load_config_data c2AmendedMerge hasLlmTable llmTable
  rcases h : lookupToml data "llm" with _ | v
  · simp [h]
  · cases v <;> simp [h]

/-- C3: the effective endpoint is the CLI value if given, else the config
value, else the built-in default; likewise the model; and the effective
api_key is the config value if present, else the tool-specific environment
variable, else the generic one, else absent — where, per the code's
truthiness tests, a value is "given"/"present" exactly when it is a non-empty
string (see C10), and an api_key that is absent in this sense carries no
`Authorization` header.  The CLI never enters the api_key chain. -/
theorem C3_settings_precedence
    (cliE cfgE cliM cfgM cfgK envTool envGeneric : Option String) :
    resolveEndpoint cliE cfgE = specResolvedEndpoint cliE cfgE
    ∧ resolveModel cliM cfgM = specResolvedModel cliM cfgM
    ∧ givenVal (resolveApiKey cfgK envTool envGeneric)
        = specResolvedApiKey cfgK envTool envGeneric :=
  ⟨resolve_chain_eq cliE cfgE DEFAULT_ENDPOINT,
   resolve_chain_eq cliM cfgM DEFAULT_MODEL,
   apiKey_chain_eq cfgK envTool envGeneric⟩

/-- C7: every extraction request carries exactly one `Authorization` header,
with value `Bearer ` followed by the key, when the api_key resolved to a
value, and no `Authorization` header at all when it resolved to none (in the
code's sense of `if api_key:`; empty strings count as none, see C10). -/
theorem C7_bearer_header (endpoint model : String) (b : List Byte) (e : String) :
    (∀ k : String, pyTruthy (some k) = true →
      (mkRequest endpoint model b e (some k)).headers.filter
          (fun p => decide (p.1 = "Authorization"))
        = [("Authorization", "Bearer " ++ k)])
    ∧ (∀ key : Option String, pyTruthy key = false →
      (mkRequest endpoint model b e key).headers.filter
          (fun p => decide (p.1 = "Authorization")) = []) := by
  constructor
  · intro k hk
    simp [mkRequest, buildHeaders, hk, List.filter]
  · intro key hk
    simp [mkRequest, buildHeaders, hk, List.filter]

/-- C7, witness at a concrete key and at no key. -/
theorem C7_bearer_header_witness :
    pyTruthy (some "sk-test") = true
    ∧ (mkRequest DEFAULT_ENDPOINT DEFAULT_MODEL [] "png" (some "sk-test")).headers.filter
        (fun p => decide (p.1 = "Authorization"))
      = [("Authorization", "Bearer " ++ "sk-test")]
    ∧ pyTruthy none = false
    ∧ (mkRequest DEFAULT_ENDPOINT DEFAULT_MODEL [] "png" none).headers.filter
        (fun p => decide (p.1 = "Authorization")) = [] :=
  ⟨by decide,
   (C7_bearer_header DEFAULT_ENDPOINT DEFAULT_MODEL [] "png").1 "sk-test" (by decide),
   by decide,
   (C7_bearer_header DEFAULT_ENDPOINT DEFAULT_MODEL [] "png").2 none (by decide)⟩

/-- C10: at every precedence level an empty string is treated as absent — an
empty CLI endpoint or model falls through to the config value or default, an
empty config or environment api_key falls through to the next source, and an
api_key resolving to the empty string produces no `Authorization` header. -/
theorem C10_empty_string_is_absent :
    (∀ cfgv : Option String, resolveEndpoint (some "") cfgv = resolveEndpoint none cfgv)
    ∧ (∀ cfgv : Option String, resolveModel (some "") cfgv = resolveModel none cfgv)
    ∧ (∀ e1 e2 : Option String, resolveApiKey (some "") e1 e2 = resolveApiKey none e1 e2)
    ∧ (∀ c e2 : Option String, resolveApiKey c (some "") e2 = resolveApiKey c none e2)
    ∧ buildHeaders (some "") = buildHeaders none := by
  refine ⟨?_, ?_, ?_, ?_, ?_⟩
  · intro cfgv; simp [resolveEndpoint, pyOr, pyTruthy]
  · intro cfgv; simp [resolveModel, pyOr, pyTruthy]
  · intro e1 e2; simp [resolveApiKey, pyOr, pyTruthy]
  · intro c e2
    cases c with
    | none => simp [resolveApiKey, pyOr, pyTruthy]
    | some s => by_cases hs : s = "" <;> simp [resolveApiKey, pyOr, pyTruthy, hs]
  · simp [buildHeaders, pyTruthy]

/-- C1: for a PDF with n pages and all extraction requests succeeding, the
program issues exactly n requests, one per page in document page order, and
the result of `process_pdf` equals the n returned Markdown strings joined
with the separator of two newline characters, in that same order. -/
theorem C1_pdf_one_request_per_page_joined (endpoint model : String)
    (api_key : Option String) (pages : List (List Byte)) (net : Nat → HttpResponse)
    (hok : ∀ j, j < pages.length → respOk (net j) = true) :
    (process_pdf pages endpoint model api_key net).requests
        = pages.map (fun p => mkRequest endpoint model p "png" api_key)
    ∧ (process_pdf pages endpoint model api_key net).outcome
        = .success (String.intercalate "\n\n" (netTexts net 0 pages.length)) := by
  have h := processPdfGo_all_ok endpoint model api_key net pages.length pages 0 [] [] []
    (by intro j hj; simpa using hok j hj)
  simpa [process_pdf] using h

/-- C1, witness at a concrete two-page PDF with a constant mock network (the
success hypothesis is discharged inside the proof). -/
theorem C1_pdf_one_request_per_page_joined_witness :
    (process_pdf [[(0 : Byte)], []] DEFAULT_ENDPOINT DEFAULT_MODEL none
          (fun _ => okResp "pg")).requests
        = ([[(0 : Byte)], []] : List (List Byte)).map
            (fun p => mkRequest DEFAULT_ENDPOINT DEFAULT_MODEL p "png" none)
    ∧ (process_pdf [[(0 : Byte)], []] DEFAULT_ENDPOINT DEFAULT_MODEL none
          (fun _ => okResp "pg")).outcome
        = .success (String.intercalate "\n\n"
            (netTexts (fun _ => okResp "pg") 0 ([[(0 : Byte)], []] : List (List Byte)).length)) :=
  C1_pdf_one_request_per_page_joined DEFAULT_ENDPOINT DEFAULT_MODEL none
    [[(0 : Byte)], []] (fun _ => okResp "pg")
    (fun j hj => by show respOk (okResp "pg") = true; decide)

/-- C4, counterexample: with stdout as destination, `print(text)` appends a
newline, so the emitted output is not the returned content verbatim. -/
theorem C4_counterexample :
    (run_main none none ⟨none, none, none⟩ none none none ".png" [] []
        (fun _ => okResp "hello")).outcome = .stdoutOut ("hello" ++ "\n")
    ∧ ("hello" ++ "\n") ≠ "hello" :=
  ⟨by decide, by decide⟩

/-- C4, amended: for a supported still-image input with a successful
response, exactly one request is issued, built from the raw file bytes; the
output file, when requested, receives the returned content verbatim, while
stdout receives the returned content followed by exactly one trailing
newline. -/
theorem C4_single_image_request_and_output (cliE cliM : Option String)
    (cfg : Config) (envTool envGeneric output : Option String) (rawExt : String)
    (fileBytes : List Byte) (pdfPages : List (List Byte)) (net : Nat → HttpResponse)
    (hImg : IMAGE_EXTS.contains (stripLeadingDots (lowerAscii rawExt)) = true)
    (hok : respOk (net 0) = true) :
    (run_main cliE cliM cfg envTool envGeneric output rawExt fileBytes pdfPages net).requests
        = [mkRequest (resolveEndpoint cliE cfg.endpoint) (resolveModel cliM cfg.model)
            fileBytes (stripLeadingDots (lowerAscii rawExt))
            (resolveApiKey cfg.api_key envTool envGeneric)]
    ∧ (pyTruthy output = true →
        (run_main cliE cliM cfg envTool envGeneric output rawExt fileBytes pdfPages net).outcome
          = .fileOut (output.getD "") (contentOf (net 0)))
    ∧ (pyTruthy output = false →
        (run_main cliE cliM cfg envTool envGeneric output rawExt fileBytes pdfPages net).outcome
          = .stdoutOut (contentOf (net 0) ++ "\n")) := by
  have hx := extract_eq_ok (resolveEndpoint cliE cfg.endpoint)
    (resolveModel cliM cfg.model) fileBytes (stripLeadingDots (lowerAscii rawExt))
    (resolveApiKey cfg.api_key envTool envGeneric) (net 0) hok
  have hmem : stripLeadingDots (lowerAscii rawExt) ∈ IMAGE_EXTS := by simpa using hImg
  refine ⟨by cases ho : pyTruthy output <;> simp [run_main, hmem, hx, emitResult, ho], ?_, ?_⟩
  · intro ho; simp [run_main, hmem, hx, emitResult, ho]
  · intro ho; simp [run_main, hmem, hx, emitResult, ho]

/-- C4, witness at a concrete PNG input written to an output file. -/
theorem C4_single_image_request_and_output_witness :
    IMAGE_EXTS.contains (stripLeadingDots (lowerAscii ".png")) = true
    ∧ respOk ((fun _ => okResp "hello") 0) = true
    ∧ ((run_main none none ⟨none, none, none⟩ none none (some "out.md") ".png"
          [(1 : Byte)] [] (fun _ => okResp "hello")).requests
        = [mkRequest (resolveEndpoint none none) (resolveModel none none)
            [(1 : Byte)] (stripLeadingDots (lowerAscii ".png")) (resolveApiKey none none none)]
      ∧ (pyTruthy (some "out.md") = true →
          (run_main none none ⟨none, none, none⟩ none none (some "out.md") ".png"
            [(1 : Byte)] [] (fun _ => okResp "hello")).outcome
            = .fileOut ((some "out.md").getD "") (contentOf ((fun _ => okResp "hello") 0)))
      ∧ (pyTruthy (some "out.md") = false →
          (run_main none none ⟨none, none, none⟩ none none (some "out.md") ".png"
            [(1 : Byte)] [] (fun _ => okResp "hello")).outcome
            = .stdoutOut (contentOf ((fun _ => okResp "hello") 0) ++ "\n"))) :=
  ⟨by decide, by decide,
   C4_single_image_request_and_output none none ⟨none, none, none⟩ none none
     (some "out.md") ".png" [(1 : Byte)] [] (fun _ => okResp "hello")
     (by decide) (by decide)⟩

/-- C5, counterexample: a 304 response is not 2xx, yet `raise_for_status`
does not raise on it, so a two-page PDF whose responses all carry status 304
with well-formed bodies is processed to completion: both pages are sent and
output is produced, where the claim requires aborting at the first page. -/
theorem C5_counterexample :
    (run_main none none ⟨none, none, none⟩ none none none ".pdf" [] [[], []]
        (fun _ => ⟨304, okBody "a"⟩)).requests.length = 2
    ∧ (run_main none none ⟨none, none, none⟩ none none none ".pdf" [] [[], []]
        (fun _ => ⟨304, okBody "a"⟩)).outcome = .stdoutOut "a\n\na\n"
    ∧ ¬(200 ≤ 304 ∧ 304 < 300) :=
  ⟨by decide, by decide, by decide⟩

/-- C5, amended: when an extraction request receives a 4xx or 5xx status
(the statuses `raise_for_status` raises on), processing aborts at that point
with exit status 1: in the single-image path after the one request, and in
the PDF path after request k+1 with no further page rendered or sent, no
retry, and no primary output.  Other non-2xx final statuses (e.g. 304) do not
by themselves abort. -/
theorem C5_http_error_aborts :
    (∀ (cliE cliM : Option String) (cfg : Config)
        (envTool envGeneric output : Option String) (rawExt : String)
        (fileBytes : List Byte) (pdfPages : List (List Byte)) (net : Nat → HttpResponse),
      IMAGE_EXTS.contains (stripLeadingDots (lowerAscii rawExt)) = true →
      isHttpErrorStatus (net 0).status = true →
      (run_main cliE cliM cfg envTool envGeneric output rawExt fileBytes pdfPages net).requests.length = 1
      ∧ (run_main cliE cliM cfg envTool envGeneric output rawExt fileBytes pdfPages net).outcome
          = .exited 1)
    ∧ (∀ (cliE cliM : Option String) (cfg : Config)
        (envTool envGeneric output : Option String) (rawExt : String)
        (fileBytes : List Byte) (pdfPages : List (List Byte)) (net : Nat → HttpResponse)
        (k : Nat),
      stripLeadingDots (lowerAscii rawExt) = "pdf" →
      k < pdfPages.length →
      (∀ j, j < k → respOk (net j) = true) →
      isHttpErrorStatus (net k).status = true →
      (run_main cliE cliM cfg envTool envGeneric output rawExt fileBytes pdfPages net).requests.length = k + 1
      ∧ (run_main cliE cliM cfg envTool envGeneric output rawExt fileBytes pdfPages net).outcome
          = .exited 1) := by
  constructor
  · intro cliE cliM cfg envTool envGeneric output rawExt fileBytes pdfPages net hImg hbad
    have hx := extract_eq_httpError (resolveEndpoint cliE cfg.endpoint)
      (resolveModel cliM cfg.model) fileBytes (stripLeadingDots (lowerAscii rawExt))
      (resolveApiKey cfg.api_key envTool envGeneric) (net 0) hbad
    have hmem : stripLeadingDots (lowerAscii rawExt) ∈ IMAGE_EXTS := by simpa using hImg
    exact ⟨by simp [run_main, hmem, hx], by simp [run_main, hmem, hx]⟩
  · intro cliE cliM cfg envTool envGeneric output rawExt fileBytes pdfPages net k
      hExt hk hok hbad
    have hfail : respOk (net k) = false := by simp [respOk, hbad]
    have h := processPdfGo_fail (resolveEndpoint cliE cfg.endpoint)
      (resolveModel cliM cfg.model) (resolveApiKey cfg.api_key envTool envGeneric)
      net pdfPages.length pdfPages 0 [] [] [] k hk
      (by intro j hj; simpa using hok j hj) (by simpa using hfail)
    have hreqlen : (process_pdf pdfPages (resolveEndpoint cliE cfg.endpoint)
        (resolveModel cliM cfg.model) (resolveApiKey cfg.api_key envTool envGeneric)
        net).requests.length = k + 1 := by
      rw [show (process_pdf pdfPages (resolveEndpoint cliE cfg.endpoint)
          (resolveModel cliM cfg.model) (resolveApiKey cfg.api_key envTool envGeneric)
          net).requests = _ from h.1]
      simp [List.length_take]
      omega
    have hmemPdf : "pdf" ∉ IMAGE_EXTS := by decide
    have hrm : run_main cliE cliM cfg envTool envGeneric output rawExt fileBytes pdfPages net
        = ⟨(process_pdf pdfPages (resolveEndpoint cliE cfg.endpoint)
              (resolveModel cliM cfg.model) (resolveApiKey cfg.api_key envTool envGeneric)
              net).requests,
           (process_pdf pdfPages (resolveEndpoint cliE cfg.endpoint)
              (resolveModel cliM cfg.model) (resolveApiKey cfg.api_key envTool envGeneric)
              net).stderr, .exited 1⟩ := by
      simp [run_main, hExt, hmemPdf,
        show (process_pdf pdfPages (resolveEndpoint cliE cfg.endpoint)
          (resolveModel cliM cfg.model) (resolveApiKey cfg.api_key envTool envGeneric)
          net).outcome = .exited 1 from h.2]
    exact ⟨by rw [hrm]; exact hreqlen, by rw [hrm]⟩

/-- C5, witness: both parts at concrete inputs (a 500 on a PNG input; a 404
on the first page of a one-page PDF). -/
theorem C5_http_error_aborts_witness :
    (IMAGE_EXTS.contains (stripLeadingDots (lowerAscii ".png")) = true
    ∧ isHttpErrorStatus ((fun _ => (⟨500, Json.other⟩ : HttpResponse)) 0).status = true
    ∧ (run_main none none ⟨none, none, none⟩ none none none ".png" [] []
        (fun _ => (⟨500, Json.other⟩ : HttpResponse))).requests.length = 1
    ∧ (run_main none none ⟨none, none, none⟩ none none none ".png" [] []
        (fun _ => (⟨500, Json.other⟩ : HttpResponse))).outcome = .exited 1)
    ∧ (stripLeadingDots (lowerAscii ".pdf") = "pdf"
    ∧ 0 < ([[]] : List (List Byte)).length
    ∧ isHttpErrorStatus ((fun _ => (⟨404, Json.other⟩ : HttpResponse)) 0).status = true
    ∧ (run_main none none ⟨none, none, none⟩ none none none ".pdf" [] [[]]
        (fun _ => (⟨404, Json.other⟩ : HttpResponse))).requests.length = 0 + 1
    ∧ (run_main none none ⟨none, none, none⟩ none none none ".pdf" [] [[]]
        (fun _ => (⟨404, Json.other⟩ : HttpResponse))).outcome = .exited 1) := by
  have h1 := C5_http_error_aborts.1 none none ⟨none, none, none⟩ none none none
    ".png" [] [] (fun _ => (⟨500, Json.other⟩ : HttpResponse)) (by decide) (by decide)
  have h2 := C5_http_error_aborts.2 none none ⟨none, none, none⟩ none none none
    ".pdf" [] [[]] (fun _ => (⟨404, Json.other⟩ : HttpResponse)) 0 (by decide)
    (by decide) (fun j hj => absurd hj (Nat.not_lt_zero j)) (by decide)
  exact ⟨⟨by decide, by decide, h1.1, h1.2⟩, by decide, by decide, by decide, h2.1, h2.2⟩

/-- C6: an input whose (case-insensitively computed) extension is not one of
jpg, jpeg, png, gif, bmp, webp, or pdf makes the program print the
unsupported-format message to stderr and exit with status 1, issuing no
network request at all. -/
theorem C6_unsupported_extension_rejected (cliE cliM : Option String)
    (cfg : Config) (envTool envGeneric output : Option String) (rawExt : String)
    (fileBytes : List Byte) (pdfPages : List (List Byte)) (net : Nat → HttpResponse)
    (hImg : IMAGE_EXTS.contains (stripLeadingDots (lowerAscii rawExt)) = false)
    (hPdf : stripLeadingDots (lowerAscii rawExt) ≠ "pdf") :
    run_main cliE cliM cfg envTool envGeneric output rawExt fileBytes pdfPages net
      = ⟨[], [unsupportedMsg], .exited 1⟩ := by
  have hmem : stripLeadingDots (lowerAscii rawExt) ∉ IMAGE_EXTS := by simpa using hImg
  simp [run_main, hmem, hPdf]

/-- C6, witness at a `.txt` input. -/
theorem C6_unsupported_extension_rejected_witness :
    IMAGE_EXTS.contains (stripLeadingDots (lowerAscii ".txt")) = false
    ∧ stripLeadingDots (lowerAscii ".txt") ≠ "pdf"
    ∧ run_main none none ⟨none, none, none⟩ none none none ".txt" [] []
        (fun _ => okResp "x")
      = ⟨[], [unsupportedMsg], .exited 1⟩ :=
  ⟨by decide, by decide,
   C6_unsupported_extension_rejected none none ⟨none, none, none⟩ none none none
     ".txt" [] [] (fun _ => okResp "x") (by decide) (by decide)⟩

/-- C8, counterexample: in the PDF path a shape-mismatch (body with no
`choices`) is caught by the generic per-page handler and reported with
`sys.exit(1)` — it does not surface as an unhandled error, contrary to the
claim that it is unhandled in both paths. -/
theorem C8_counterexample :
    (run_main none none ⟨none, none, none⟩ none none none ".pdf" [] [[]]
        (fun _ => (⟨200, Json.obj []⟩ : HttpResponse))).outcome = .exited 1
    ∧ Outcome.exited 1 ≠ Outcome.uncaught :=
  ⟨by decide, by decide⟩

/-- C8, amended: a response body not matching the expected shape is fatal in
both paths with no primary output — in the single-image path the exception
propagates unhandled out of `main` (only `RequestException` is caught), while
in the per-page PDF path it is caught by the generic per-page handler and the
program exits with status 1. -/
theorem C8_shape_mismatch_fatal :
    (∀ (cliE cliM : Option String) (cfg : Config)
        (envTool envGeneric output : Option String) (rawExt : String)
        (fileBytes : List Byte) (pdfPages : List (List Byte)) (net : Nat → HttpResponse),
      IMAGE_EXTS.contains (stripLeadingDots (lowerAscii rawExt)) = true →
      isHttpErrorStatus (net 0).status = false →
      extractContent (net 0).body = none →
      (run_main cliE cliM cfg envTool envGeneric output rawExt fileBytes pdfPages net).requests.length = 1
      ∧ (run_main cliE cliM cfg envTool envGeneric output rawExt fileBytes pdfPages net).outcome
          = .uncaught)
    ∧ (∀ (cliE cliM : Option String) (cfg : Config)
        (envTool envGeneric output : Option String) (rawExt : String)
        (fileBytes : List Byte) (pdfPages : List (List Byte)) (net : Nat → HttpResponse)
        (k : Nat),
      stripLeadingDots (lowerAscii rawExt) = "pdf" →
      k < pdfPages.length →
      (∀ j, j < k → respOk (net j) = true) →
      isHttpErrorStatus (net k).status = false →
      extractContent (net k).body = none →
      (run_main cliE cliM cfg envTool envGeneric output rawExt fileBytes pdfPages net).outcome
        = .exited 1) := by
  constructor
  · intro cliE cliM cfg envTool envGeneric output rawExt fileBytes pdfPages net
      hImg hst hshape
    have hx := extract_eq_shapeError (resolveEndpoint cliE cfg.endpoint)
      (resolveModel cliM cfg.model) fileBytes (stripLeadingDots (lowerAscii rawExt))
      (resolveApiKey cfg.api_key envTool envGeneric) (net 0) hst hshape
    have hmem : stripLeadingDots (lowerAscii rawExt) ∈ IMAGE_EXTS := by simpa using hImg
    exact ⟨by simp [run_main, hmem, hx], by simp [run_main, hmem, hx]⟩
  · intro cliE cliM cfg envTool envGeneric output rawExt fileBytes pdfPages net k
      hExt hk hok hst hshape
    have hfail : respOk (net k) = false := by simp [respOk, hshape]
    have h := processPdfGo_fail (resolveEndpoint cliE cfg.endpoint)
      (resolveModel cliM cfg.model) (resolveApiKey cfg.api_key envTool envGeneric)
      net pdfPages.length pdfPages 0 [] [] [] k hk
      (by intro j hj; simpa using hok j hj) (by simpa using hfail)
    have hmemPdf : "pdf" ∉ IMAGE_EXTS := by decide
    simp [run_main, hExt, hmemPdf, show (process_pdf pdfPages
      (resolveEndpoint cliE cfg.endpoint) (resolveModel cliM cfg.model)
      (resolveApiKey cfg.api_key envTool envGeneric) net).outcome = .exited 1 from h.2]

/-- C8, witness: both parts at a concrete body lacking `choices`. -/
theorem C8_shape_mismatch_fatal_witness :
    (IMAGE_EXTS.contains (stripLeadingDots (lowerAscii ".png")) = true
    ∧ isHttpErrorStatus ((fun _ => (⟨200, Json.obj []⟩ : HttpResponse)) 0).status = false
    ∧ extractContent ((fun _ => (⟨200, Json.obj []⟩ : HttpResponse)) 0).body = none
    ∧ (run_main none none ⟨none, none, none⟩ none none none ".png" [] []
        (fun _ => (⟨200, Json.obj []⟩ : HttpResponse))).requests.length = 1
    ∧ (run_main none none ⟨none, none, none⟩ none none none ".png" [] []
        (fun _ => (⟨200, Json.obj []⟩ : HttpResponse))).outcome = .uncaught)
    ∧ (stripLeadingDots (lowerAscii ".pdf") = "pdf"
    ∧ 0 < ([[], []] : List (List Byte)).length
    ∧ (run_main none none ⟨none, none, none⟩ none none none ".pdf" [] [[], []]
        (fun _ => (⟨200, Json.obj []⟩ : HttpResponse))).outcome = .exited 1) := by
  have h1 := C8_shape_mismatch_fatal.1 none none ⟨none, none, none⟩ none none none
    ".png" [] [] (fun _ => (⟨200, Json.obj []⟩ : HttpResponse)) (by decide) (by decide) (by decide)
  have h2 := C8_shape_mismatch_fatal.2 none none ⟨none, none, none⟩ none none none
    ".pdf" [] [[], []] (fun _ => (⟨200, Json.obj []⟩ : HttpResponse)) 0 (by decide)
    (by decide) (fun j hj => absurd hj (Nat.not_lt_zero j)) (by decide) (by decide)
  exact ⟨⟨by decide, by decide, by decide, h1.1, h1.2⟩, by decide, by decide, h2⟩

/-- C9, counterexample: the tag `JPG` is not `jpg`, so the claim says it
passes through unchanged, but the code lowercases it and then normalizes it
to `jpeg`. -/
theorem C9_counterexample :
    encode_image_to_data_url [] "JPG"
      ≠ "data:image/" ++ "JPG" ++ ";base64," ++ String.mk (b64encode []) :=
  by decide

/-- C9, amended: the data URL equals `data:image/` + M + `;base64,` +
base64(bytes), where M is the tag ASCII-lowercased with leading dots
stripped, then normalized from `jpg` to `jpeg`.  In particular for tags that
are already lowercase with no leading dot — all tags the program itself
passes — `jpg` is the only tag that is changed. -/
theorem C9_data_url_normalization (data : List Byte) (tag : String)
    (hLower : lowerAscii tag = tag) (hDots : stripLeadingDots tag = tag) :
    encode_image_to_data_url data tag
      = "data:image/" ++ (if tag = "jpg" then "jpeg" else tag) ++ ";base64,"
          ++ String.mk (b64encode data) := by
  simp [encode_image_to_data_url, hLower, hDots]

/-- C9, witness at the tags `png` and `jpg` on a one-byte buffer. -/
theorem C9_data_url_normalization_witness :
    (lowerAscii "png" = "png" ∧ stripLeadingDots "png" = "png"
    ∧ encode_image_to_data_url [(137 : Byte)] "png"
        = "data:image/" ++ (if "png" = "jpg" then "jpeg" else "png") ++ ";base64,"
            ++ String.mk (b64encode [(137 : Byte)]))
    ∧ (lowerAscii "jpg" = "jpg" ∧ stripLeadingDots "jpg" = "jpg"
    ∧ encode_image_to_data_url [(137 : Byte)] "jpg"
        = "data:image/" ++ (if "jpg" = "jpg" then "jpeg" else "jpg") ++ ";base64,"
            ++ String.mk (b64encode [(137 : Byte)])) :=
  ⟨⟨by decide, by decide,
    C9_data_url_normalization [(137 : Byte)] "png" (by decide) (by decide)⟩,
   ⟨by decide, by decide,
    C9_data_url_normalization [(137 : Byte)] "jpg" (by decide) (by decide)⟩⟩

end Doc2md
